import Mathlib

/-!
Verification of the cursor subsystem (`src/utils/cursor.rs`).

The file shallowly embeds the Rust module: the storage backends (file,
memory, redis-like remote store), the `Storage` dispatcher, the `State`
machine and the `Provider` facade with its debounce policy.  Effects are
made explicit: the filesystem and the remote key-value store are carried
in a `World` record, wall-clock instants are natural numbers counting
nanoseconds, and fallible operations return `Except Err`.
-/

namespace Cursor

/-- Error kinds of the cursor subsystem.  The Rust code uses a boxed
dynamic error; the spec distinguishes these four kinds. -/
inductive Err where
  | notFound
  | parseError
  | connectionError
  | ioError
deriving DecidableEq, Repr

/-! ### PointArg and its serialization -/

/-- Modelled from the spec: `PointArg` is defined in `crate::sources`,
outside the provided sources.  The spec requires only an opaque,
totally-ordered, serializable position value whose equality, clone and
round-tripping canonical string serialization matter; we model it as a
numeric offset. -/
structure PointArg where
  offset : Nat
deriving DecidableEq, Repr

/-- Character for a single decimal digit. -/
def digitChar : Nat → Char
  | 0 => '0'
  | 1 => '1'
  | 2 => '2'
  | 3 => '3'
  | 4 => '4'
  | 5 => '5'
  | 6 => '6'
  | 7 => '7'
  | 8 => '8'
  | 9 => '9'
  | _ => '?'

/-- Decimal digit denoted by a character, if any. -/
def charDigit? (c : Char) : Option Nat :=
  if c = '0' then some 0
  else if c = '1' then some 1
  else if c = '2' then some 2
  else if c = '3' then some 3
  else if c = '4' then some 4
  else if c = '5' then some 5
  else if c = '6' then some 6
  else if c = '7' then some 7
  else if c = '8' then some 8
  else if c = '9' then some 9
  else none

/-- Parse a list of characters as decimal digits; fails on any
non-digit character. -/
def parseDigits : List Char → Option (List Nat)
  | [] => some []
  | c :: rest =>
    match charDigit? c, parseDigits rest with
    | some d, some ds => some (d :: ds)
    | _, _ => none

/-- Canonical decimal rendering of a natural number
(most significant digit first). -/
def natToDecimal (n : Nat) : String :=
  if n = 0 then "0" else ⟨((Nat.digits 10 n).map digitChar).reverse⟩

/-- Parse a decimal string; fails on the empty string or any
non-digit character. -/
def decimalToNat? (s : String) : Option Nat :=
  if s.data.isEmpty then none
  else
    match parseDigits s.data with
    | some ds => some (Nat.ofDigits 10 ds.reverse)
    | none => none

/-- Modelled from the spec: the canonical string serialization of a
`PointArg` (the `to_string` used by the file backend). -/
def PointArg.serialize (p : PointArg) : String :=
  natToDecimal p.offset

/-- Modelled from the spec: parsing a `PointArg` from its canonical
string serialization (the `FromStr` used by the file backend). -/
def PointArg.parse (s : String) : Except Err PointArg :=
  match decimalToNat? s with
  | some n => .ok ⟨n⟩
  | none => .error .parseError

/-- Modelled from the spec: the JSON serialization of a `PointArg`
used by the remote backend (`serde_json::to_string`); a bare JSON
number. -/
def PointArg.toJson (p : PointArg) : String :=
  natToDecimal p.offset

/-- Modelled from the spec: JSON deserialization of a `PointArg` used
by the remote backend (`serde_json::from_str`). -/
def PointArg.fromJson (s : String) : Except Err PointArg :=
  match decimalToNat? s with
  | some n => .ok ⟨n⟩
  | none => .error .parseError

/-! ### The external world: filesystem and remote key-value store -/

/-- A string-keyed, string-valued store; used both for the filesystem
(path to file content) and the redis-like remote store (key to value). -/
abbrev KV := List (String × String)

/-- Look a key up in a store. -/
def kvLookup (k : String) : KV → Option String
  | [] => none
  | (k2, v) :: rest => if k = k2 then some v else kvLookup k rest

/-- Remove a key from a store. -/
def kvErase (k : String) : KV → KV
  | [] => []
  | (k2, v) :: rest => if k = k2 then kvErase k rest else (k2, v) :: kvErase k rest

/-- Bind a key in a store, replacing any previous binding. -/
def kvInsert (k v : String) (l : KV) : KV :=
  (k, v) :: kvErase k l

/-- The explicit state of the outside world: file contents by path, the
remote store, and whether the remote store is reachable (a `false` flag
models pool/connection failures). -/
structure World where
  fs : KV
  kv : KV
  redisUp : Bool
deriving DecidableEq, Repr

/-! ### Configs and storage backends (`FileConfig`, `RedisConfig`,
`FileStorage`, `MemoryStorage`, `RedisStorage`, `Storage`) -/

/-- Configuration for the file-based storage implementation. -/
structure FileConfig where
  path : String
deriving DecidableEq, Repr

/-- Configuration for the redis-like remote storage implementation. -/
structure RedisConfig where
  url : String
  key : String
deriving DecidableEq, Repr

/-- The closed set of storage backends (`enum Storage` in the source,
each variant carrying the corresponding `*Storage` newtype). -/
inductive Storage where
  | file (config : FileConfig)
  | memory (point : PointArg)
  | redis (config : RedisConfig)
deriving DecidableEq, Repr

/-- `FileStorage::read_cursor`: read the file at the configured path
and parse it as a `PointArg`.  A missing file is `notFound`
(`std::fs::read_to_string` error), malformed content is `parseError`. -/
def fileReadCursor (config : FileConfig) (w : World) : Except Err PointArg :=
  match kvLookup config.path w.fs with
  | none => .error .notFound
  | some content => PointArg.parse content

/-- First half of `FileStorage::write_cursor`: write the serialized
point to the temporary sibling file `<path>.tmp`. -/
def fileWriteTmp (config : FileConfig) (point : PointArg) (fs : KV) : KV :=
  kvInsert (config.path ++ ".tmp") point.serialize fs

/-- Second half of `FileStorage::write_cursor`: atomically rename
`<path>.tmp` over `<path>`. -/
def fileRenameTmp (config : FileConfig) (fs : KV) : KV :=
  match kvLookup (config.path ++ ".tmp") fs with
  | some content => kvInsert config.path content (kvErase (config.path ++ ".tmp") fs)
  | none => fs

/-- `FileStorage::write_cursor`: save to a tmp file, then rename it
over the target path. -/
def fileWriteCursor (config : FileConfig) (point : PointArg) (w : World) : Except Err World :=
  .ok { w with fs := fileRenameTmp config (fileWriteTmp config point w.fs) }

/-- `MemoryStorage::read_cursor`: always returns the construction-time
value. -/
def memoryReadCursor (point : PointArg) (_w : World) : Except Err PointArg :=
  .ok point

/-- `MemoryStorage::write_cursor`: no operation, memory storage does
not persist anything. -/
def memoryWriteCursor (_point : PointArg) (w : World) : Except Err World :=
  .ok w

/-- `RedisStorage::read_cursor`: obtain a pooled connection, `GET` the
configured key, deserialize the JSON payload.  An unreachable store is
`connectionError` (pool construction/checkout failure), a missing key
is `notFound`. -/
def redisReadCursor (config : RedisConfig) (w : World) : Except Err PointArg :=
  if w.redisUp then
    match kvLookup config.key w.kv with
    | none => .error .notFound
    | some data => PointArg.fromJson data
  else .error .connectionError

/-- `RedisStorage::write_cursor`: obtain a pooled connection, `SET` the
configured key to the JSON serialization of the point. -/
def redisWriteCursor (config : RedisConfig) (point : PointArg) (w : World) : Except Err World :=
  if w.redisUp then
    .ok { w with kv := kvInsert config.key point.toJson w.kv }
  else .error .connectionError

/-- `impl CanStore for Storage`: dispatch `read_cursor` to the active
backend. -/
def Storage.read_cursor : Storage → World → Except Err PointArg
  | .file x, w => fileReadCursor x w
  | .memory x, w => memoryReadCursor x w
  | .redis x, w => redisReadCursor x w

/-- `impl CanStore for Storage`: dispatch `write_cursor` to the active
backend. -/
def Storage.write_cursor : Storage → PointArg → World → Except Err World
  | .file x, p, w => fileWriteCursor x p w
  | .memory _, p, w => memoryWriteCursor p w
  | .redis x, p, w => redisWriteCursor x p w

/-! ### Config, State and Provider -/

/-- `enum Config`: tagged selection of exactly one backend. -/
inductive Config where
  | file (config : FileConfig)
  | memory (point : PointArg)
  | redis (config : RedisConfig)
deriving DecidableEq, Repr

/-- One nanosecond-resolution wall-clock instant (`std::time::Instant`
is monotone with nanosecond precision; we count nanoseconds). -/
abbrev Instant := Nat

/-- `Duration::from_secs`, in nanoseconds. -/
def durationFromSecs (s : Nat) : Nat :=
  s * 1000000000

/-- `Instant::elapsed` at the current instant `now`. -/
def elapsedAt (reached now : Instant) : Nat :=
  now - reached

/-- `enum State`: the in-memory cursor cache. -/
inductive State where
  | unknown
  | invalid
  | atPoint (point : PointArg) (reached : Instant)
deriving DecidableEq, Repr

/-- `struct Provider`: one storage backend plus the guarded state.  The
`RwLock` serializes access; with every operation a single atomic step
here, the lock adds nothing to the sequential model. -/
structure Provider where
  storage : Storage
  state : State
deriving DecidableEq, Repr

/-- `Provider::new`: build the storage from the config and start with
`State::Unknown`. -/
def Provider.new (config : Config) : Provider :=
  { state := .unknown
    storage :=
      match config with
      | .file x => .file x
      | .memory x => .memory x
      | .redis x => .redis x }

/-- `Provider::load_cursor` at instant `now`: read the backend; on
success cache `AtPoint{point, reached: now}`, on failure log a warning
(the returned flag) and record `Invalid`.  Reading never changes the
world. -/
def Provider.load_cursor (p : Provider) (w : World) (now : Instant) : Provider × Bool :=
  let maybePoint := p.storage.read_cursor w
  let state : State :=
    match maybePoint with
    | .ok point => .atPoint point now
    | .error _ => .invalid
  ({ p with state := state },
   match maybePoint with
   | .ok _ => false
   | .error _ => true)

/-- `Provider::initialize` at instant `now`, also exposing whether the
load warning was logged.  It is total: load errors become `Invalid`
state, never a propagated failure. -/
def Provider.initializeLogged (config : Config) (w : World) (now : Instant) :
    Provider × Bool :=
  (Provider.new config).load_cursor w now

/-- `Provider::initialize` at instant `now` (construct, then one load). -/
def Provider.initializeCursor (config : Config) (w : World) (now : Instant) : Provider :=
  (Provider.initializeLogged config w now).1

/-- `Provider::get_cursor`: a pure read of the cached state.  Its type
records that it performs no backend I/O: it takes no `World` and
returns no effect. -/
def Provider.get_cursor (p : Provider) : Option PointArg :=
  match p.state with
  | .atPoint point _ => some point
  | _ => none

deriving instance DecidableEq for Except

/-- Everything one call to `set_cursor` produces: the provider and
world afterwards, the returned `Result`, and whether the backend
`write_cursor` was invoked (the source has a single call site, so the
flag counts the backend writes of the call: `true` is exactly one). -/
structure SetOutcome where
  provider : Provider
  world : World
  result : Except Err Unit
  wrote : Bool
deriving DecidableEq, Repr

/-- The `should_update` test of `Provider::set_cursor`:
`reached.elapsed() > Duration::from_secs(10)` when the state is
`AtPoint`, and `true` for `Unknown` or `Invalid`. -/
def Provider.should_update (p : Provider) (now : Instant) : Bool :=
  match p.state with
  | .atPoint _ reached => decide (durationFromSecs 10 < elapsedAt reached now)
  | _ => true

/-- `Provider::set_cursor` at instant `now`.  Debounce policy: when the
state is `AtPoint` and at most 10 seconds have elapsed since `reached`,
do nothing and succeed; otherwise write the backend, and only on a
successful write cache `AtPoint{point, reached: now}`.  A failed write
propagates (`?`) leaving state and world unchanged. -/
def Provider.set_cursor (p : Provider) (point : PointArg) (w : World) (now : Instant) :
    SetOutcome :=
  if p.should_update now then
    match p.storage.write_cursor point w with
    | .error e => ⟨p, w, .error e, true⟩
    | .ok w2 => ⟨{ p with state := .atPoint point now }, w2, .ok (), true⟩
  else ⟨p, w, .ok (), false⟩

/-! ### Operation traces over a running provider -/

/-- A pipeline-facing operation on a running provider: a sink reporting
progress (`set_cursor` at some instant) or a source asking for the
resume position (`get_cursor`). -/
inductive Op where
  | setC (point : PointArg) (now : Instant)
  | getC
deriving DecidableEq, Repr

/-- One operation applied to a provider and the world.  `get_cursor` is
a pure read and leaves both untouched. -/
def stepOp (pw : Provider × World) (op : Op) : Provider × World :=
  match op with
  | .setC point now =>
    let out := pw.1.set_cursor point pw.2 now
    (out.provider, out.world)
  | .getC => pw

/-- A whole trace of operations applied in order. -/
def runOps (pw : Provider × World) (ops : List Op) : Provider × World :=
  ops.foldl stepOp pw

/-- A sequence of `write_cursor` calls against the memory backend,
threading the world through the successful results. -/
def applyMemoryWrites (p0 : PointArg) (writes : List PointArg) (w : World) : World :=
  writes.foldl
    (fun wacc q =>
      match Storage.write_cursor (.memory p0) q wacc with
      | .ok w2 => w2
      | .error _ => wacc)
    w

/-! ### Store lemmas -/

theorem kvLookup_insert_self (k v : String) (l : KV) :
    kvLookup k (kvInsert k v l) = some v := by
  simp [kvInsert, kvLookup]

theorem kvLookup_erase_ne (k k2 : String) (l : KV) (h : k ≠ k2) :
    kvLookup k (kvErase k2 l) = kvLookup k l := by
  induction l with
  | nil => rfl
  | cons e rest ih =>
    obtain ⟨ke, ve⟩ := e
    by_cases hk : k2 = ke
    · subst hk
      simp [kvErase, kvLookup, h, ih]
    · simp only [kvErase, if_neg hk, kvLookup]
      by_cases hk2 : k = ke
      · simp [hk2]
      · simp [hk2, ih]

theorem kvLookup_insert_ne (k k2 v : String) (l : KV) (h : k ≠ k2) :
    kvLookup k (kvInsert k2 v l) = kvLookup k l := by
  simp only [kvInsert, kvLookup, if_neg h]
  exact kvLookup_erase_ne k k2 l h

theorem path_ne_tmpPath (path : String) : path ≠ path ++ ".tmp" := by
  intro h
  have hlen := congrArg String.length h
  rw [String.length_append] at hlen
  have h4 : (".tmp" : String).length = 4 := rfl
  omega

/-! ### Serialization round trip -/

theorem charDigit_digitChar (d : Nat) (h : d < 10) :
    charDigit? (digitChar d) = some d := by
  interval_cases d <;> decide

theorem parseDigits_map_digitChar (l : List Nat) (h : ∀ d ∈ l, d < 10) :
    parseDigits (l.map digitChar) = some l := by
  induction l with
  | nil => rfl
  | cons d rest ih =>
    have hd : d < 10 := h d (List.mem_cons_self d rest)
    have hrest : ∀ x ∈ rest, x < 10 := fun x hx => h x (List.mem_cons_of_mem d hx)
    simp only [List.map, parseDigits, charDigit_digitChar d hd, ih hrest]

theorem decimalToNat_natToDecimal (n : Nat) :
    decimalToNat? (natToDecimal n) = some n := by
  by_cases h0 : n = 0
  · subst h0
    decide
  · have hne : Nat.digits 10 n ≠ [] := Nat.digits_ne_nil_iff_ne_zero.mpr h0
    have hlt : ∀ d ∈ (Nat.digits 10 n).reverse, d < 10 := by
      intro d hd
      exact Nat.digits_lt_base (by norm_num) (List.mem_reverse.mp hd)
    have hdata : (natToDecimal n).data = ((Nat.digits 10 n).reverse).map digitChar := by
      rw [natToDecimal, if_neg h0]
      exact (List.map_reverse digitChar (Nat.digits 10 n)).symm
    have hnil : ¬ (natToDecimal n).data.isEmpty = true := by
      rw [hdata]
      simp [hne]
    rw [decimalToNat?, if_neg hnil, hdata, parseDigits_map_digitChar _ hlt]
    simp [Nat.ofDigits_digits]

theorem parse_serialize (p : PointArg) : PointArg.parse p.serialize = .ok p := by
  simp [PointArg.parse, PointArg.serialize, decimalToNat_natToDecimal]

theorem fromJson_toJson (p : PointArg) : PointArg.fromJson p.toJson = .ok p := by
  simp [PointArg.fromJson, PointArg.toJson, decimalToNat_natToDecimal]

/-! ### Claim C1 -/

/-- C1, counterexample: with the cursor at point 7 reached at instant 0
and a `set_cursor 42` issued 5 seconds later (inside the debounce
window), no backend write occurs and the call succeeds, but `get_cursor`
still returns point 7 — not point 42 as the claim states: the debounce
branch of `set_cursor` is a pure no-op, not a cache update. -/
theorem C1_counterexample :
    elapsedAt 0 (durationFromSecs 5) < durationFromSecs 10 ∧
    (Provider.set_cursor ⟨.memory ⟨7⟩, .atPoint ⟨7⟩ 0⟩ ⟨42⟩ ⟨[], [], true⟩
      (durationFromSecs 5)).wrote = false ∧
    (Provider.set_cursor ⟨.memory ⟨7⟩, .atPoint ⟨7⟩ 0⟩ ⟨42⟩ ⟨[], [], true⟩
      (durationFromSecs 5)).result = .ok () ∧
    (Provider.set_cursor ⟨.memory ⟨7⟩, .atPoint ⟨7⟩ 0⟩ ⟨42⟩ ⟨[], [], true⟩
      (durationFromSecs 5)).provider.get_cursor = some ⟨7⟩ ∧
    (Provider.set_cursor ⟨.memory ⟨7⟩, .atPoint ⟨7⟩ 0⟩ ⟨42⟩ ⟨[], [], true⟩
      (durationFromSecs 5)).provider.get_cursor ≠ some ⟨42⟩ := by
  decide

/-- C1 (amended): for every provider whose state is
`AtPoint{point0, reached}` and every `set_cursor p2` issued when fewer
than 10 seconds have elapsed since `reached`, no backend write occurs
and the call returns success, but the in-memory cache is NOT updated:
the state (point and timestamp) is left unchanged and a subsequent
`get_cursor` returns `Some(point0)`, the supplied point being
discarded. -/
theorem C1_debounced_set_is_noop (storage : Storage) (p0 : PointArg) (reached : Instant)
    (p2 : PointArg) (w : World) (now : Instant)
    (h : elapsedAt reached now < durationFromSecs 10) :
    Provider.set_cursor ⟨storage, .atPoint p0 reached⟩ p2 w now =
      ⟨⟨storage, .atPoint p0 reached⟩, w, .ok (), false⟩ ∧
    (Provider.set_cursor ⟨storage, .atPoint p0 reached⟩ p2 w now).provider.get_cursor =
      some p0 := by
  have hs : (⟨storage, .atPoint p0 reached⟩ : Provider).should_update now = false := by
    simp only [Provider.should_update, decide_eq_false_iff_not, not_lt]
    omega
  simp [Provider.set_cursor, hs, Provider.get_cursor]

/-- C1, witness for the amended theorem at a concrete input. -/
theorem C1_debounced_set_is_noop_witness :
    Provider.set_cursor ⟨.memory ⟨7⟩, .atPoint ⟨7⟩ 3⟩ ⟨42⟩ ⟨[], [], true⟩
      (durationFromSecs 9) =
      ⟨⟨.memory ⟨7⟩, .atPoint ⟨7⟩ 3⟩, ⟨[], [], true⟩, .ok (), false⟩ ∧
    (Provider.set_cursor ⟨.memory ⟨7⟩, .atPoint ⟨7⟩ 3⟩ ⟨42⟩ ⟨[], [], true⟩
      (durationFromSecs 9)).provider.get_cursor = some ⟨7⟩ :=
  C1_debounced_set_is_noop (.memory ⟨7⟩) ⟨7⟩ 3 ⟨42⟩ ⟨[], [], true⟩
    (durationFromSecs 9) (by decide)

/-! ### Claim C2 -/

/-- C2, counterexample: the claim includes "exactly 10 seconds elapsed"
in the cases that trigger a backend write, but the source tests
`reached.elapsed() > Duration::from_secs(10)` strictly: at exactly 10
seconds no write is performed and the state is untouched. -/
theorem C2_counterexample :
    elapsedAt 0 (durationFromSecs 10) = durationFromSecs 10 ∧
    (Provider.set_cursor ⟨.memory ⟨7⟩, .atPoint ⟨7⟩ 0⟩ ⟨42⟩ ⟨[], [], true⟩
      (durationFromSecs 10)).wrote = false ∧
    (Provider.set_cursor ⟨.memory ⟨7⟩, .atPoint ⟨7⟩ 0⟩ ⟨42⟩ ⟨[], [], true⟩
      (durationFromSecs 10)).provider.state = .atPoint ⟨7⟩ 0 := by
  decide

/-- C2 (amended): for every `set_cursor p` issued when the state is
`Unknown`, `Invalid`, or `AtPoint` with strictly more than 10 seconds
elapsed since `reached`, exactly one backend `write_cursor p` is
performed, and on its success the state becomes
`AtPoint{point: p, reached: now}` with the call returning success. -/
theorem C2_write_after_window (p : Provider) (pt : PointArg) (w : World) (now : Instant)
    (h : p.state = .unknown ∨ p.state = .invalid ∨
      ∃ q r, p.state = .atPoint q r ∧ durationFromSecs 10 < elapsedAt r now) :
    (p.set_cursor pt w now).wrote = true ∧
    ∀ w2, p.storage.write_cursor pt w = .ok w2 →
      (p.set_cursor pt w now).provider.state = .atPoint pt now ∧
      (p.set_cursor pt w now).world = w2 ∧
      (p.set_cursor pt w now).result = .ok () := by
  have hs : p.should_update now = true := by
    rcases h with h | h | ⟨q, r, hst, hlt⟩ <;> simp [Provider.should_update, *]
  refine ⟨?_, fun w2 hw => ?_⟩
  · rw [Provider.set_cursor, hs]
    cases hw : p.storage.write_cursor pt w <;> simp
  · rw [Provider.set_cursor, hs]
    simp [hw]

/-- C2, witness for the amended theorem at a concrete input: an
`Invalid` provider over the memory backend. -/
theorem C2_write_after_window_witness :
    (Provider.set_cursor ⟨.memory ⟨7⟩, .invalid⟩ ⟨42⟩ ⟨[], [], true⟩ 5).wrote = true ∧
    (Provider.set_cursor ⟨.memory ⟨7⟩, .invalid⟩ ⟨42⟩ ⟨[], [], true⟩ 5).provider.state =
      .atPoint ⟨42⟩ 5 :=
  ⟨(C2_write_after_window ⟨.memory ⟨7⟩, .invalid⟩ ⟨42⟩ ⟨[], [], true⟩ 5
      (Or.inr (Or.inl rfl))).1,
   ((C2_write_after_window ⟨.memory ⟨7⟩, .invalid⟩ ⟨42⟩ ⟨[], [], true⟩ 5
      (Or.inr (Or.inl rfl))).2 ⟨[], [], true⟩ rfl).1⟩

/-! ### Claim C10 -/

/-- C10: for every provider whose state is `AtPoint{point0, reached}`
and every `set_cursor p2` issued when at most 10 seconds (including
exactly 10) have elapsed since `reached`, the call returns success,
performs no backend write and leaves provider and world completely
unchanged: `get_cursor` afterwards returns `Some(point0)`, and not
`Some(p2)` whenever the two points differ. -/
theorem C10_set_within_window_frame (storage : Storage) (p0 : PointArg) (reached : Instant)
    (p2 : PointArg) (w : World) (now : Instant)
    (h : elapsedAt reached now ≤ durationFromSecs 10) :
    Provider.set_cursor ⟨storage, .atPoint p0 reached⟩ p2 w now =
      ⟨⟨storage, .atPoint p0 reached⟩, w, .ok (), false⟩ ∧
    (Provider.set_cursor ⟨storage, .atPoint p0 reached⟩ p2 w now).provider.get_cursor =
      some p0 ∧
    (p0 ≠ p2 →
      (Provider.set_cursor ⟨storage, .atPoint p0 reached⟩ p2 w now).provider.get_cursor ≠
        some p2) := by
  have hs : (⟨storage, .atPoint p0 reached⟩ : Provider).should_update now = false := by
    simp only [Provider.should_update, decide_eq_false_iff_not, not_lt]
    omega
  refine ⟨?_, ?_, ?_⟩
  · rw [Provider.set_cursor, hs]
    simp
  · rw [Provider.set_cursor, hs]
    simp [Provider.get_cursor]
  · intro hne
    rw [Provider.set_cursor, hs]
    simp [Provider.get_cursor]
    intro hcontr
    exact hne hcontr

/-- C10, witness at the boundary: exactly 10 seconds elapsed, the call
is still a no-op. -/
theorem C10_set_within_window_frame_witness :
    Provider.set_cursor ⟨.memory ⟨7⟩, .atPoint ⟨7⟩ 0⟩ ⟨42⟩ ⟨[], [], true⟩
      (durationFromSecs 10) =
      ⟨⟨.memory ⟨7⟩, .atPoint ⟨7⟩ 0⟩, ⟨[], [], true⟩, .ok (), false⟩ ∧
    (Provider.set_cursor ⟨.memory ⟨7⟩, .atPoint ⟨7⟩ 0⟩ ⟨42⟩ ⟨[], [], true⟩
      (durationFromSecs 10)).provider.get_cursor = some ⟨7⟩ :=
  ⟨(C10_set_within_window_frame (.memory ⟨7⟩) ⟨7⟩ 0 ⟨42⟩ ⟨[], [], true⟩
      (durationFromSecs 10) (by decide)).1,
   (C10_set_within_window_frame (.memory ⟨7⟩) ⟨7⟩ 0 ⟨42⟩ ⟨[], [], true⟩
      (durationFromSecs 10) (by decide)).2.1⟩

/-! ### Claim C3 -/

/-- C3: whenever `set_cursor p` attempts the backend write and the
write fails, the call returns that error, provider state and world are
left exactly as they were, the failed write is the backend error, and a
subsequent `get_cursor` returns the previously cached value — never the
attempted new point (when that point was not already cached). -/
theorem C3_write_failure_preserves_state (p : Provider) (pt : PointArg) (w : World)
    (now : Instant) (e : Err)
    (h : (p.set_cursor pt w now).result = .error e) :
    (p.set_cursor pt w now).provider = p ∧
    (p.set_cursor pt w now).world = w ∧
    p.storage.write_cursor pt w = .error e ∧
    (p.set_cursor pt w now).provider.get_cursor = p.get_cursor ∧
    (p.get_cursor ≠ some pt → (p.set_cursor pt w now).provider.get_cursor ≠ some pt) := by
  cases hs : p.should_update now with
  | false =>
    rw [Provider.set_cursor, hs] at h
    simp at h
  | true =>
    cases hw : p.storage.write_cursor pt w with
    | ok w2 =>
      rw [Provider.set_cursor, hs, hw] at h
      simp at h
    | error e2 =>
      rw [Provider.set_cursor, hs, hw] at h
      simp at h
      subst h
      rw [Provider.set_cursor, hs, hw]
      exact ⟨rfl, rfl, rfl, rfl, fun hne => hne⟩

/-- C3, witness: an unreachable remote store makes the attempted write
fail with a connection error; the `Invalid` state and the `None`
cursor are preserved. -/
theorem C3_write_failure_preserves_state_witness :
    (Provider.set_cursor ⟨.redis ⟨"redis://x", "k1"⟩, .invalid⟩ ⟨42⟩ ⟨[], [], false⟩
      0).provider = ⟨.redis ⟨"redis://x", "k1"⟩, .invalid⟩ ∧
    (Provider.set_cursor ⟨.redis ⟨"redis://x", "k1"⟩, .invalid⟩ ⟨42⟩ ⟨[], [], false⟩
      0).provider.get_cursor ≠ some ⟨42⟩ :=
  ⟨(C3_write_failure_preserves_state ⟨.redis ⟨"redis://x", "k1"⟩, .invalid⟩ ⟨42⟩
      ⟨[], [], false⟩ 0 .connectionError rfl).1,
   (C3_write_failure_preserves_state ⟨.redis ⟨"redis://x", "k1"⟩, .invalid⟩ ⟨42⟩
      ⟨[], [], false⟩ 0 .connectionError rfl).2.2.2.2 (by decide)⟩

/-! ### Claim C4 -/

/-- C4: `initialize` is a total function into `Provider` (no error is
ever propagated, by its very type), and whenever the initial backend
read fails, the failure is logged as a warning, the state becomes
`Invalid`, and a subsequent `get_cursor` returns `None`. -/
theorem C4_initialize_swallows_load_errors (config : Config) (w : World) (now : Instant)
    (e : Err) (h : (Provider.new config).storage.read_cursor w = .error e) :
    (Provider.initializeCursor config w now).state = .invalid ∧
    (Provider.initializeLogged config w now).2 = true ∧
    (Provider.initializeCursor config w now).get_cursor = none := by
  simp [Provider.initializeCursor, Provider.initializeLogged, Provider.load_cursor, h,
    Provider.get_cursor]

/-- C4, witness: a file config whose path is absent from the
filesystem (the spec's `missing.cursor` scenario). -/
theorem C4_initialize_swallows_load_errors_witness :
    (Provider.initializeCursor (.file ⟨"missing.cursor"⟩) ⟨[], [], true⟩ 3).state =
      .invalid ∧
    (Provider.initializeLogged (.file ⟨"missing.cursor"⟩) ⟨[], [], true⟩ 3).2 = true ∧
    (Provider.initializeCursor (.file ⟨"missing.cursor"⟩) ⟨[], [], true⟩ 3).get_cursor =
      none :=
  C4_initialize_swallows_load_errors (.file ⟨"missing.cursor"⟩) ⟨[], [], true⟩ 3
    .notFound rfl

/-! ### Claim C5 -/

/-- C5: the state machine invariant.  After `initialize` the state is
never `Unknown` again: `initialize` itself leaves `Invalid` or
`AtPoint`; `load_cursor` takes `Unknown`/`Invalid` to `Invalid` or to
`AtPoint` reached now; `set_cursor` either leaves the state untouched
(debounce or failed write) or, exactly when it succeeds with a backend
write, moves it to `AtPoint` — so it never produces `Invalid` or
`Unknown` — and any trace of pipeline operations after `initialize`
keeps the state away from `Unknown`. -/
theorem C5_state_machine_invariant (config : Config) (w : World) (now : Instant) :
    (Provider.initializeCursor config w now).state ≠ .unknown ∧
    (∀ (p : Provider) (wl : World) (t : Instant),
      p.state = .unknown ∨ p.state = .invalid →
      (p.load_cursor wl t).1.state = .invalid ∨
        ∃ q, (p.load_cursor wl t).1.state = .atPoint q t) ∧
    (∀ (p : Provider) (pt : PointArg) (wl : World) (t : Instant),
      (p.set_cursor pt wl t).provider.state = p.state ∨
        ((p.set_cursor pt wl t).result = .ok () ∧ (p.set_cursor pt wl t).wrote = true ∧
          (p.set_cursor pt wl t).provider.state = .atPoint pt t)) ∧
    (∀ ops : List Op,
      (runOps (Provider.initializeCursor config w now, w) ops).1.state ≠ .unknown) := by
  have hload : ∀ (p : Provider) (wl : World) (t : Instant),
      (p.load_cursor wl t).1.state = .invalid ∨
        ∃ q, (p.load_cursor wl t).1.state = .atPoint q t := by
    intro p wl t
    cases hr : p.storage.read_cursor wl with
    | ok q => exact Or.inr ⟨q, by simp [Provider.load_cursor, hr]⟩
    | error e => exact Or.inl (by simp [Provider.load_cursor, hr])
  have hset : ∀ (p : Provider) (pt : PointArg) (wl : World) (t : Instant),
      (p.set_cursor pt wl t).provider.state = p.state ∨
        ((p.set_cursor pt wl t).result = .ok () ∧ (p.set_cursor pt wl t).wrote = true ∧
          (p.set_cursor pt wl t).provider.state = .atPoint pt t) := by
    intro p pt wl t
    cases hs : p.should_update t with
    | false =>
      rw [Provider.set_cursor, hs]
      exact Or.inl rfl
    | true =>
      cases hw : p.storage.write_cursor pt wl with
      | ok w2 =>
        rw [Provider.set_cursor, hs, hw]
        exact Or.inr ⟨rfl, rfl, rfl⟩
      | error e =>
        rw [Provider.set_cursor, hs, hw]
        exact Or.inl rfl
  have hinit : (Provider.initializeCursor config w now).state ≠ .unknown := by
    rcases hload (Provider.new config) w now with h | ⟨q, h⟩ <;>
      simp_all [Provider.initializeCursor, Provider.initializeLogged]
  refine ⟨hinit, fun p wl t _ => hload p wl t, hset, fun ops => ?_⟩
  have hstep : ∀ (pw : Provider × World) (op : Op),
      pw.1.state ≠ .unknown → (stepOp pw op).1.state ≠ .unknown := by
    intro pw op hne
    cases op with
    | getC => exact hne
    | setC pt t =>
      rcases hset pw.1 pt pw.2 t with h | ⟨_, _, h⟩ <;> simp [stepOp, h, hne]
  have : ∀ (ops : List Op) (pw : Provider × World),
      pw.1.state ≠ .unknown → (runOps pw ops).1.state ≠ .unknown := by
    intro ops
    induction ops with
    | nil => exact fun pw h => h
    | cons op rest ih =>
      intro pw h
      exact ih (stepOp pw op) (hstep pw op h)
  exact this ops _ hinit

/-- C5, witness: the invariant instantiated at a concrete memory-backed
provider, with the hypothesis of the `load_cursor` conjunct discharged
at the `Unknown` state. -/
theorem C5_state_machine_invariant_witness :
    (Provider.initializeCursor (.memory ⟨7⟩) ⟨[], [], true⟩ 0).state ≠ .unknown ∧
    ((Provider.load_cursor ⟨.memory ⟨7⟩, .unknown⟩ ⟨[], [], true⟩ 3).1.state = .invalid ∨
      ∃ q, (Provider.load_cursor ⟨.memory ⟨7⟩, .unknown⟩ ⟨[], [], true⟩ 3).1.state =
        .atPoint q 3) ∧
    (runOps (Provider.initializeCursor (.memory ⟨7⟩) ⟨[], [], true⟩ 0, ⟨[], [], true⟩)
      [.setC ⟨42⟩ 1, .getC]).1.state ≠ .unknown :=
  ⟨(C5_state_machine_invariant (.memory ⟨7⟩) ⟨[], [], true⟩ 0).1,
   (C5_state_machine_invariant (.memory ⟨7⟩) ⟨[], [], true⟩ 0).2.1
     ⟨.memory ⟨7⟩, .unknown⟩ ⟨[], [], true⟩ 3 (Or.inl rfl),
   (C5_state_machine_invariant (.memory ⟨7⟩) ⟨[], [], true⟩ 0).2.2.2
     [.setC ⟨42⟩ 1, .getC]⟩

/-! ### Claim C6 -/

/-- C6: `get_cursor` returns `Some(point)` exactly when the state is
`AtPoint{point, ..}`, returns `None` on `Unknown` and `Invalid`, and is
a pure function of the cached state alone — it takes no world and
triggers no backend read or write, as its type shows; in particular its
value is independent of the storage backend. -/
theorem C6_get_cursor_pure (p : Provider) (pt : PointArg) :
    (p.get_cursor = some pt ↔ ∃ r, p.state = .atPoint pt r) ∧
    (p.state = .unknown ∨ p.state = .invalid → p.get_cursor = none) ∧
    (∀ s2 : Storage, Provider.get_cursor ⟨s2, p.state⟩ = p.get_cursor) := by
  obtain ⟨storage, st⟩ := p
  cases st <;> simp [Provider.get_cursor]

/-- C6, witness: both directions at concrete states. -/
theorem C6_get_cursor_pure_witness :
    ((⟨.memory ⟨7⟩, .atPoint ⟨7⟩ 5⟩ : Provider).get_cursor = some ⟨7⟩ ↔
      ∃ r, (⟨.memory ⟨7⟩, .atPoint ⟨7⟩ 5⟩ : Provider).state = .atPoint ⟨7⟩ r) ∧
    (⟨.memory ⟨7⟩, .invalid⟩ : Provider).get_cursor = none :=
  ⟨(C6_get_cursor_pure ⟨.memory ⟨7⟩, .atPoint ⟨7⟩ 5⟩ ⟨7⟩).1,
   (C6_get_cursor_pure ⟨.memory ⟨7⟩, .invalid⟩ ⟨7⟩).2.1 (Or.inr rfl)⟩

/-! ### Claim C7 -/

/-- C7: the memory backend's `write_cursor` always succeeds and leaves
the world untouched, and `read_cursor` always returns the value fixed
at construction — also after any sequence of writes; initializing from
`Config::Memory(P0)` therefore caches `Some(P0)` immediately. -/
theorem C7_memory_backend (p0 q : PointArg) (w : World) (writes : List PointArg)
    (t : Instant) :
    Storage.write_cursor (.memory p0) q w = .ok w ∧
    Storage.read_cursor (.memory p0) w = .ok p0 ∧
    applyMemoryWrites p0 writes w = w ∧
    Storage.read_cursor (.memory p0) (applyMemoryWrites p0 writes w) = .ok p0 ∧
    (Provider.initializeCursor (.memory p0) w t).get_cursor = some p0 := by
  have hfold : ∀ (ws : List PointArg) (w2 : World), applyMemoryWrites p0 ws w2 = w2 := by
    intro ws
    induction ws with
    | nil => exact fun w2 => rfl
    | cons q2 rest ih =>
      intro w2
      simp only [applyMemoryWrites, List.foldl_cons] at ih ⊢
      exact ih w2
  refine ⟨rfl, ?_, hfold writes w, ?_, ?_⟩
  · simp [Storage.read_cursor, memoryReadCursor]
  · rw [hfold writes w]
    simp [Storage.read_cursor, memoryReadCursor]
  · simp [Provider.initializeCursor, Provider.initializeLogged, Provider.new,
      Provider.load_cursor, Storage.read_cursor, memoryReadCursor, Provider.get_cursor]

/-! ### Claim C8 -/

/-- C8: the file backend's `write_cursor` first writes the serialized
point to the sibling `<path>.tmp` and only then renames it over the
target.  Writing the temp file leaves the target path (and so
`read_cursor`) untouched — interruption before the rename preserves the
previous content or absence — and after the rename the target holds
exactly the complete serialization, so no intermediate filesystem state
ever exposes partial data at the target path. -/
theorem C8_file_write_atomic (config : FileConfig) (pt : PointArg) (w : World) :
    kvLookup config.path (fileWriteTmp config pt w.fs) = kvLookup config.path w.fs ∧
    Storage.read_cursor (.file config) { w with fs := fileWriteTmp config pt w.fs } =
      Storage.read_cursor (.file config) w ∧
    Storage.write_cursor (.file config) pt w =
      .ok { w with fs := fileRenameTmp config (fileWriteTmp config pt w.fs) } ∧
    kvLookup config.path (fileRenameTmp config (fileWriteTmp config pt w.fs)) =
      some pt.serialize ∧
    (∀ fs2 ∈ [w.fs, fileWriteTmp config pt w.fs,
        fileRenameTmp config (fileWriteTmp config pt w.fs)],
      kvLookup config.path fs2 = kvLookup config.path w.fs ∨
      kvLookup config.path fs2 = some pt.serialize) := by
  have htmp : kvLookup config.path (fileWriteTmp config pt w.fs) =
      kvLookup config.path w.fs :=
    kvLookup_insert_ne config.path (config.path ++ ".tmp") pt.serialize w.fs
      (path_ne_tmpPath config.path)
  have hfound : kvLookup (config.path ++ ".tmp") (fileWriteTmp config pt w.fs) =
      some pt.serialize :=
    kvLookup_insert_self (config.path ++ ".tmp") pt.serialize w.fs
  have hrename : kvLookup config.path
      (fileRenameTmp config (fileWriteTmp config pt w.fs)) = some pt.serialize := by
    rw [fileRenameTmp, hfound]
    exact kvLookup_insert_self config.path pt.serialize _
  refine ⟨htmp, ?_, rfl, hrename, ?_⟩
  · simp [Storage.read_cursor, fileReadCursor, htmp]
  · intro fs2 hmem
    simp only [List.mem_cons, List.not_mem_nil, or_false] at hmem
    rcases hmem with rfl | rfl | rfl
    · exact Or.inl rfl
    · exact Or.inl htmp
    · exact Or.inr hrename

/-- C8, witness: writing point 42 over a file that previously held
point 7; the temp-file stage still reads the old point and the renamed
result holds the full new serialization. -/
theorem C8_file_write_atomic_witness :
    kvLookup "c.cursor" (fileWriteTmp ⟨"c.cursor"⟩ ⟨42⟩ [("c.cursor", "7")]) =
      kvLookup "c.cursor" [("c.cursor", "7")] ∧
    kvLookup "c.cursor"
      (fileRenameTmp ⟨"c.cursor"⟩ (fileWriteTmp ⟨"c.cursor"⟩ ⟨42⟩ [("c.cursor", "7")])) =
      some (PointArg.serialize ⟨42⟩) ∧
    (kvLookup "c.cursor" (fileWriteTmp ⟨"c.cursor"⟩ ⟨42⟩ [("c.cursor", "7")]) =
      kvLookup "c.cursor" [("c.cursor", "7")] ∨
      kvLookup "c.cursor" (fileWriteTmp ⟨"c.cursor"⟩ ⟨42⟩ [("c.cursor", "7")]) =
        some (PointArg.serialize ⟨42⟩)) :=
  ⟨(C8_file_write_atomic ⟨"c.cursor"⟩ ⟨42⟩ ⟨[("c.cursor", "7")], [], true⟩).1,
   (C8_file_write_atomic ⟨"c.cursor"⟩ ⟨42⟩ ⟨[("c.cursor", "7")], [], true⟩).2.2.2.1,
   (C8_file_write_atomic ⟨"c.cursor"⟩ ⟨42⟩ ⟨[("c.cursor", "7")], [], true⟩).2.2.2.2
     (fileWriteTmp ⟨"c.cursor"⟩ ⟨42⟩ [("c.cursor", "7")]) (by simp)⟩

/-! ### Claim C9 -/

/-- C9: the remote backend stores the JSON serialization of the point
under the configured key — every other key, in particular any
hardcoded literal, is untouched — and `read_cursor` fetches the string
under that same key and deserializes it back into a `PointArg`, so a
read after a successful write returns exactly the written point. -/
theorem C9_redis_configured_key (config : RedisConfig) (pt : PointArg) (w : World)
    (hup : w.redisUp = true) :
    Storage.write_cursor (.redis config) pt w =
      .ok { w with kv := kvInsert config.key pt.toJson w.kv } ∧
    kvLookup config.key (kvInsert config.key pt.toJson w.kv) = some pt.toJson ∧
    (∀ k, k ≠ config.key →
      kvLookup k (kvInsert config.key pt.toJson w.kv) = kvLookup k w.kv) ∧
    Storage.read_cursor (.redis config)
      { w with kv := kvInsert config.key pt.toJson w.kv } = .ok pt ∧
    (∀ s, kvLookup config.key w.kv = some s →
      Storage.read_cursor (.redis config) w = PointArg.fromJson s) := by
  refine ⟨?_, kvLookup_insert_self config.key pt.toJson w.kv,
    fun k hk => kvLookup_insert_ne k config.key pt.toJson w.kv hk, ?_, fun s hs => ?_⟩
  · simp [Storage.write_cursor, redisWriteCursor, hup]
  · simp [Storage.read_cursor, redisReadCursor, hup,
      kvLookup_insert_self config.key pt.toJson w.kv, fromJson_toJson]
  · simp [Storage.read_cursor, redisReadCursor, hup, hs]

/-- C9, witness: writing under the configured key `"k1"` stores the
JSON payload there, leaves the dead-code literal `"oura-cursor"`
unbound, and reading it back returns the written point. -/
theorem C9_redis_configured_key_witness :
    Storage.write_cursor (.redis ⟨"redis://x", "k1"⟩) ⟨42⟩ ⟨[], [], true⟩ =
      .ok ⟨[], kvInsert "k1" (PointArg.toJson ⟨42⟩) [], true⟩ ∧
    kvLookup "oura-cursor" (kvInsert "k1" (PointArg.toJson ⟨42⟩) []) =
      kvLookup "oura-cursor" ([] : KV) ∧
    Storage.read_cursor (.redis ⟨"redis://x", "k1"⟩)
      ⟨[], kvInsert "k1" (PointArg.toJson ⟨42⟩) [], true⟩ = .ok ⟨42⟩ :=
  ⟨(C9_redis_configured_key ⟨"redis://x", "k1"⟩ ⟨42⟩ ⟨[], [], true⟩ rfl).1,
   (C9_redis_configured_key ⟨"redis://x", "k1"⟩ ⟨42⟩ ⟨[], [], true⟩ rfl).2.2.1
     "oura-cursor" (by decide),
   (C9_redis_configured_key ⟨"redis://x", "k1"⟩ ⟨42⟩ ⟨[], [], true⟩ rfl).2.2.2.1⟩

end Cursor
